import Mathlib

/-!
Verification of the RPS-Plus (Rock-Paper-Scissors-Bomb) game engine.

Shallow embedding of the repository's Python sources:
  game_state.py, helpers/intent_parser.py, tools/validate_move.py,
  tools/resolve_round.py, tools/update_game_state.py, tools/waste_round.py,
  and the orchestrator RPSPlusGame.play_round in agent.py.

Python strings are modelled as Lean `String` (operated on through their
character lists); Python ints as `Int`; Python dicts produced by
`GameState.to_dict` as a record type with exactly the keys the code emits.
The bot-move selector (helpers/bot_move.py) is randomized, so the
orchestrator is parameterized by the bot's selected move.
-/

namespace RPSB

/-- A single-quote character, used to build the apostrophes appearing in the
source's string literals (filler phrases and explanation messages). -/
def sq : String := String.mk [Char.ofNat 39]

/-- ASCII lowercase conversion of one character, embedding Python `str.lower`
on the ASCII range used by the code (emoji are unaffected, as in Python). -/
def pyLowerChar (c : Char) : Char :=
  if 'A' ≤ c ∧ c ≤ 'Z' then Char.ofNat (c.toNat + 32) else c

/-- Whitespace predicate for Python `str.strip()` (ASCII whitespace). -/
def pySpace (c : Char) : Bool :=
  decide (c = ' ') || decide (c = Char.ofNat 9) || decide (c = Char.ofNat 10) ||
  decide (c = Char.ofNat 13) || decide (c = Char.ofNat 11) || decide (c = Char.ofNat 12)

/-- Python `str.strip()`: drop whitespace from both ends. -/
def pyStrip (l : List Char) : List Char :=
  ((l.dropWhile pySpace).reverse.dropWhile pySpace).reverse

/-- `leadsWith n l` holds when `n` is an initial segment of `l`
(embedding Python `str.startswith`, and the base case of `in`). -/
def leadsWith : List Char → List Char → Bool
  | [], _ => true
  | _ :: _, [] => false
  | a :: as, b :: bs => decide (a = b) && leadsWith as bs

/-- `containsSub n l` embeds Python's substring test `n in l`. -/
def containsSub (n : List Char) : List Char → Bool
  | [] => leadsWith n []
  | c :: t => leadsWith n (c :: t) || containsSub n t

/-- Python `str.rstrip("!.,?")`. -/
def rstripPunct (l : List Char) : List Char :=
  (l.reverse.dropWhile (fun c =>
    decide (c = '!') || decide (c = '.') || decide (c = ',') || decide (c = '?'))).reverse

/-- Embedding of `move.strip().lower()` from tools/validate_move.py line 51. -/
def pyNormStr (m : String) : String :=
  String.mk ((pyStrip m.toList).map pyLowerChar)

/-! ## Data model (game_state.py) -/

/-- Record of a single round (game_state.py `RoundResult`). -/
structure RoundResult where
  round_number : Int
  user_move : String
  bot_move : String
  winner : String
deriving DecidableEq, Repr

/-- Complete game state (game_state.py `GameState`). -/
structure GameState where
  current_round : Int
  user_score : Int
  bot_score : Int
  user_bomb_used : Bool
  bot_bomb_used : Bool
  round_history : List RoundResult
  game_over : Bool
  final_winner : Option String
deriving DecidableEq, Repr

/-- Fresh state, from the dataclass field defaults / `create_new_game`. -/
def create_new_game : GameState :=
  { current_round := 1
    user_score := 0
    bot_score := 0
    user_bomb_used := false
    bot_bomb_used := false
    round_history := []
    game_over := false
    final_winner := none }

/-! ## Intent parser (helpers/intent_parser.py) -/

/-- The synonym dictionary `MOVE_SYNONYMS`, in Python dict insertion order
(which is its iteration order). -/
def MOVE_SYNONYMS : List (String × String) :=
  [("rock", "rock"), ("stone", "rock"), ("boulder", "rock"), ("fist", "rock"),
   ("r", "rock"), ("🪨", "rock"),
   ("paper", "paper"), ("sheet", "paper"), ("page", "paper"), ("wrap", "paper"),
   ("p", "paper"), ("📄", "paper"), ("📃", "paper"),
   ("scissors", "scissors"), ("scissor", "scissors"), ("cut", "scissors"),
   ("snip", "scissors"), ("s", "scissors"), ("✂️", "scissors"), ("✂", "scissors"),
   ("bomb", "bomb"), ("boom", "bomb"), ("explode", "bomb"), ("blast", "bomb"),
   ("nuke", "bomb"), ("b", "bomb"), ("💣", "bomb"), ("🧨", "bomb")]

/-- The ordered filler-phrase list from `normalize_input`. -/
def fillers : List String :=
  ["i pick ", "i choose ", "i go with ", "i" ++ sq ++ "ll go with ",
   "my move is ", "let" ++ sq ++ "s go ", "going with ", "i say ",
   "i want ", "give me ", "let" ++ sq ++ "s do ", "i play "]

/-- The `for filler in fillers: if startswith: strip remainder; break` loop of
`normalize_input` (note the extra `.strip()` after removing the filler). -/
def stripFillerRec : List String → List Char → List Char
  | [], n => n
  | f :: fs, n =>
    if leadsWith f.toList n then pyStrip (n.drop f.toList.length)
    else stripFillerRec fs n

/-- `normalize_input` from helpers/intent_parser.py: lowercase, strip, remove
first matching leading filler (re-stripping), strip trailing punctuation. -/
def normalize_input (text : String) : String :=
  String.mk (rstripPunct (stripFillerRec fillers (pyStrip (text.toList.map pyLowerChar))))

/-- The `normalized in MOVE_SYNONYMS` exact-key lookup (dict membership and
indexing; the canonical move of the matching key, if any). -/
def tableExact (normalized : String) : Option String :=
  (MOVE_SYNONYMS.find? (fun p => decide (p.1 = normalized))).map (fun p => p.2)

/-- The `for synonym, move in MOVE_SYNONYMS.items()` substring loop: canonical
move of the first key contained in the text, if any. -/
def tableSub (normalized : String) : Option String :=
  (MOVE_SYNONYMS.find? (fun p => containsSub p.1.toList normalized.toList)).map (fun p => p.2)

/-- `extract_move_offline`: exact synonym-table lookup first, then first
synonym key contained as a substring, else "unknown". -/
def extract_move_offline (user_input : String) : String :=
  let normalized := normalize_input user_input
  ((tableExact normalized).or (tableSub normalized)).getD "unknown"

/-- The rules/help keyword list from `is_rules_request`. -/
def RULES_KEYWORDS : List String := ["rules", "help", "how", "what", "explain", "?"]

/-- `is_rules_request`: any keyword contained in the normalized input. -/
def is_rules_request (user_input : String) : Bool :=
  RULES_KEYWORDS.any (fun kw => containsSub kw.toList (normalize_input user_input).toList)

/-! ## Move validator (tools/validate_move.py) -/

/-- `VALID_MOVES` from tools/validate_move.py (a set in Python; membership
is all that is ever used). -/
def VALID_MOVES : List String := ["rock", "paper", "scissors", "bomb"]

/-- Structured output of `validate_move`. -/
structure ValidateMoveOutput where
  is_valid : Bool
  normalized_move : Option String
  reason : String
deriving DecidableEq, Repr

/-- `validate_move` from tools/validate_move.py: normalize, check membership
in the valid set, then the per-player bomb-usage rule. Pure: the state is
only read. -/
def validate_move (move : String) (player : String) (game_state : GameState) :
    ValidateMoveOutput :=
  let normalized := pyNormStr move
  if normalized ∈ VALID_MOVES then
    if normalized = "bomb" then
      if player = "user" ∧ game_state.user_bomb_used = true then
        { is_valid := false, normalized_move := none
          reason := "Bomb already used. You can only use bomb once per game." }
      else if player = "bot" ∧ game_state.bot_bomb_used = true then
        { is_valid := false, normalized_move := none
          reason := "Bot has already used bomb this game." }
      else
        { is_valid := true, normalized_move := some normalized, reason := "Valid move." }
    else
      { is_valid := true, normalized_move := some normalized, reason := "Valid move." }
  else
    { is_valid := false, normalized_move := none
      reason := "Invalid move " ++ sq ++ move ++ sq ++
        ". Must be one of: rock, paper, scissors, bomb." }

/-! ## Round resolver (tools/resolve_round.py) -/

/-- `WIN_MATRIX`: attacker beats each listed defender. -/
def WIN_MATRIX : List (String × List String) :=
  [("rock", ["scissors"]), ("paper", ["rock"]), ("scissors", ["paper"]),
   ("bomb", ["rock", "paper", "scissors"])]

/-- `WIN_MATRIX.get(a, set())` membership test: does `a` beat `d`. -/
def winsAgainst (a d : String) : Bool :=
  match WIN_MATRIX.find? (fun p => decide (p.1 = a)) with
  | some p => decide (d ∈ p.2)
  | none => false

/-- Structured output of `resolve_round`. -/
structure ResolveRoundOutput where
  winner : String
  explanation : String
deriving DecidableEq, Repr

/-- `resolve_round` from tools/resolve_round.py. The Python function also
receives the game state, unused for logic; omitted here. -/
def resolve_round (user_move bot_move : String) : ResolveRoundOutput :=
  if user_move = bot_move then
    { winner := "draw"
      explanation := "Both played " ++ user_move ++ ". It" ++ sq ++ "s a draw." }
  else if winsAgainst user_move bot_move then
    if user_move = "bomb" then
      { winner := "user"
        explanation := "User" ++ sq ++ "s bomb destroys bot" ++ sq ++ "s " ++ bot_move ++ "." }
    else
      { winner := "user"
        explanation := "User" ++ sq ++ "s " ++ user_move ++ " beats bot" ++ sq ++ "s " ++
          bot_move ++ "." }
  else if winsAgainst bot_move user_move then
    if bot_move = "bomb" then
      { winner := "bot"
        explanation := "Bot" ++ sq ++ "s bomb destroys user" ++ sq ++ "s " ++ user_move ++ "." }
    else
      { winner := "bot"
        explanation := "Bot" ++ sq ++ "s " ++ bot_move ++ " beats user" ++ sq ++ "s " ++
          user_move ++ "." }
  else
    { winner := "draw"
      explanation := "Unexpected matchup: " ++ user_move ++ " vs " ++ bot_move ++ "." }

/-! ## State updater (tools/update_game_state.py) -/

/-- The game-over check chain of `_advance_round` (lines 96-110). -/
def advanceOver (s : GameState) : GameState :=
  if s.user_score ≥ 2 then { s with game_over := true, final_winner := some "user" }
  else if s.bot_score ≥ 2 then { s with game_over := true, final_winner := some "bot" }
  else if s.current_round ≥ 3 then
    { s with game_over := true
             final_winner := some (if s.user_score > s.bot_score then "user"
                                   else if s.bot_score > s.user_score then "bot"
                                   else "draw") }
  else s

/-- `_advance_round`: run the game-over chain, then increment the round
counter when the game has not ended. -/
def advanceRound (s : GameState) : GameState :=
  let s1 := advanceOver s
  if s1.game_over then s1 else { s1 with current_round := s1.current_round + 1 }

/-- `update_game_state` from tools/update_game_state.py. For
`reason = "invalid"` ("wasted" shape) only `_advance_round` runs; the move
and winner arguments are never read on that path (they default to `None` in
Python and are ignored), so they are plain strings here. On the normal path:
append the round record, score the winner, mark bomb usage, advance. -/
def update_game_state (game_state : GameState) (user_move bot_move round_winner : String)
    (reason : String) : GameState :=
  if reason = "invalid" then advanceRound game_state
  else
    let s1 := { game_state with
      round_history := game_state.round_history ++
        [{ round_number := game_state.current_round, user_move := user_move,
           bot_move := bot_move, winner := round_winner }] }
    let s2 := if round_winner = "user" then { s1 with user_score := s1.user_score + 1 }
              else if round_winner = "bot" then { s1 with bot_score := s1.bot_score + 1 }
              else s1
    let s3 := if user_move = "bomb" then { s2 with user_bomb_used := true } else s2
    let s4 := if bot_move = "bomb" then { s3 with bot_bomb_used := true } else s3
    advanceRound s4

/-! ## waste_round tool (tools/waste_round.py) -/

/-- Structured output of `waste_round`. -/
structure WasteRoundOutput where
  updated_game_state : GameState
  rounds_remaining : Int
deriving DecidableEq, Repr

/-- `waste_round` from tools/waste_round.py: no history entry and no score
change; end the game at round 3 (winner by score comparison), otherwise
increment the round counter. -/
def waste_round (game_state : GameState) : WasteRoundOutput :=
  let s :=
    if game_state.current_round ≥ 3 then
      { game_state with
          game_over := true,
          final_winner := some (if game_state.user_score > game_state.bot_score then "user"
                                else if game_state.bot_score > game_state.user_score then "bot"
                                else "draw") }
    else { game_state with current_round := game_state.current_round + 1 }
  { updated_game_state := s
    rounds_remaining := if s.game_over then 0 else 3 - (s.current_round - 1) }

/-! ## Orchestrator (agent.py `RPSPlusGame.play_round`)

The bot's move comes from the randomized `select_bot_move` helper, so the
embedding takes it as a parameter. Besides the updated state, `play_round`
records the names of the tools it dispatched through `execute_tool`, in
call order, so frame claims ("no tool runs") are statable. -/

/-- Result of one `play_round` call: next state and dispatched tool names. -/
structure PlayOut where
  st : GameState
  tools : List String
deriving DecidableEq, Repr

/-- `RPSPlusGame.play_round` (agent.py lines 131-216): terminal states are
returned unchanged; rules/help requests return the state unchanged; invalid
moves take the penalty path (placeholder user move "rock", winner "bot");
valid moves go through resolve and the normal update. -/
def play_round (botMove : String) (game_state : GameState) (user_input : String) : PlayOut :=
  if game_state.game_over then { st := game_state, tools := [] }
  else
    let candidate := if is_rules_request user_input then "none"
                     else extract_move_offline user_input
    if candidate = "none" then { st := game_state, tools := [] }
    else
      let validation := validate_move candidate "user" game_state
      if validation.is_valid = false then
        { st := update_game_state game_state "rock" botMove "bot" "normal"
          tools := ["validate_move", "update_game_state"] }
      else
        let user_move := validation.normalized_move.getD ""
        let resolution := resolve_round user_move botMove
        { st := update_game_state game_state user_move botMove resolution.winner "normal"
          tools := ["validate_move", "resolve_round", "update_game_state"] }

/-! ## Serialization (game_state.py `to_dict` / `from_dict`)

`to_dict` always emits every key, so the dictionaries it produces are
modelled as records with exactly those keys. -/

/-- The per-round dictionary emitted by `to_dict` (all four keys present). -/
structure RoundResultDict where
  round_number : Int
  user_move : String
  bot_move : String
  winner : String
deriving DecidableEq, Repr

/-- The state dictionary emitted by `to_dict` (all keys present). -/
structure GameStateDict where
  current_round : Int
  user_score : Int
  bot_score : Int
  user_bomb_used : Bool
  bot_bomb_used : Bool
  round_history : List RoundResultDict
  game_over : Bool
  final_winner : Option String
deriving DecidableEq, Repr

/-- One history entry of `GameState.to_dict`. -/
def rrToDict (r : RoundResult) : RoundResultDict :=
  { round_number := r.round_number, user_move := r.user_move,
    bot_move := r.bot_move, winner := r.winner }

/-- One history entry of `GameState.from_dict`. -/
def rrFromDict (r : RoundResultDict) : RoundResult :=
  { round_number := r.round_number, user_move := r.user_move,
    bot_move := r.bot_move, winner := r.winner }

/-- `GameState.to_dict`. -/
def to_dict (s : GameState) : GameStateDict :=
  { current_round := s.current_round
    user_score := s.user_score
    bot_score := s.bot_score
    user_bomb_used := s.user_bomb_used
    bot_bomb_used := s.bot_bomb_used
    round_history := s.round_history.map rrToDict
    game_over := s.game_over
    final_winner := s.final_winner }

/-- `GameState.from_dict` applied to a dictionary carrying every key (the
`.get` defaults only fire on absent keys, and `to_dict` emits them all). -/
def from_dict (d : GameStateDict) : GameState :=
  { current_round := d.current_round
    user_score := d.user_score
    bot_score := d.bot_score
    user_bomb_used := d.user_bomb_used
    bot_bomb_used := d.bot_bomb_used
    round_history := d.round_history.map rrFromDict
    game_over := d.game_over
    final_winner := d.final_winner }

/-! ## Spec-side extractor definitions (claim C9)

`extract_move_spec` follows the claim's listed steps word for word:
lowercase-and-trim; strip the first matching leading filler (list order,
leading match only — and nothing else); strip trailing punctuation; exact
synonym-table match; first substring match in table order; else "unknown".
`extract_move_spec_trim` is the same with one amendment: the remainder is
whitespace-trimmed again right after the filler phrase is stripped, as the
code does. -/

/-- The claim's step (b): strip only the first matching leading filler
(first match in list order; leading match only; nothing else). -/
def specStripFiller (n : List Char) : List Char :=
  ((fillers.find? (fun f => leadsWith f.toList n)).map
    (fun f => n.drop f.toList.length)).getD n

/-- The claim's step (b), amended with the code's re-trim of the remainder. -/
def specStripFillerTrim (n : List Char) : List Char :=
  ((fillers.find? (fun f => leadsWith f.toList n)).map
    (fun f => pyStrip (n.drop f.toList.length))).getD n

/-- Table lookup as the claim words steps (d)-(f): exact key match first,
then first key contained as a substring, else "unknown". -/
def specTableLookup (c : List Char) : String :=
  ((tableExact (String.mk c)).or (tableSub (String.mk c))).getD "unknown"

/-- The move extractor exactly as claim C9 words it. -/
def extract_move_spec (input : String) : String :=
  specTableLookup (rstripPunct (specStripFiller (pyStrip (input.toList.map pyLowerChar))))

/-- The amended extractor: claim C9's steps plus the post-filler re-trim. -/
def extract_move_spec_trim (input : String) : String :=
  specTableLookup (rstripPunct (specStripFillerTrim (pyStrip (input.toList.map pyLowerChar))))

/-- The four canonical move tokens (GLOSSARY of the design notes). -/
def CANONICAL_MOVES : List String := ["rock", "paper", "scissors", "bomb"]

/-- A reachable terminal state: round 3 ended 1-1, so the game is over with a
draw (history elided; the fields the claims inspect are all present). -/
def termDrawState : GameState :=
  { current_round := 3, user_score := 1, bot_score := 1, user_bomb_used := false,
    bot_bomb_used := false, round_history := [], game_over := true,
    final_winner := some "draw" }

/-- A live state in which the user already has score 2 pending the game-over
check (as produced inside the updater right before `_advance_round`). -/
def userTwoState : GameState :=
  { current_round := 2, user_score := 2, bot_score := 0, user_bomb_used := false,
    bot_bomb_used := false, round_history := [], game_over := false,
    final_winner := none }

/-- A live state where the user's bomb is spent. -/
def userBombSpentState : GameState :=
  { current_round := 2, user_score := 0, bot_score := 0, user_bomb_used := true,
    bot_bomb_used := true, round_history := [], game_over := false,
    final_winner := none }

end RPSB

namespace RPSB

/-! ## Helper lemmas -/

/-- `_advance_round` never touches history, scores, or bomb flags. -/
theorem advanceOver_frame (s : GameState) :
    (advanceOver s).round_history = s.round_history ∧
    (advanceOver s).user_score = s.user_score ∧
    (advanceOver s).bot_score = s.bot_score ∧
    (advanceOver s).user_bomb_used = s.user_bomb_used ∧
    (advanceOver s).bot_bomb_used = s.bot_bomb_used ∧
    (advanceOver s).current_round = s.current_round := by
  unfold advanceOver
  split_ifs <;> simp

/-- `_advance_round` never touches history, scores, or bomb flags. -/
theorem advanceRound_frame (s : GameState) :
    (advanceRound s).round_history = s.round_history ∧
    (advanceRound s).user_score = s.user_score ∧
    (advanceRound s).bot_score = s.bot_score ∧
    (advanceRound s).user_bomb_used = s.user_bomb_used ∧
    (advanceRound s).bot_bomb_used = s.bot_bomb_used := by
  have h := advanceOver_frame s
  simp only [advanceRound]
  split_ifs <;> simp_all

/-- Every value in the synonym table is a canonical move, hence not "none". -/
theorem synonyms_val_ne_none {p : String × String → Bool} {q : String × String}
    (h : MOVE_SYNONYMS.find? p = some q) : q.2 ≠ "none" := by
  have hmem := List.mem_of_find?_eq_some h
  have hall : ∀ r ∈ MOVE_SYNONYMS, r.2 ≠ "none" := by decide
  exact hall q hmem

/-- Both lookup stages only ever produce canonical moves, never "none". -/
theorem tableLookup_val_ne_none (n : String) {v : String}
    (h : (tableExact n).or (tableSub n) = some v) : v ≠ "none" := by
  cases hx : tableExact n with
  | some w =>
    rw [hx] at h
    obtain ⟨q, hq, hv⟩ := Option.map_eq_some'.mp hx
    simp only [Option.or] at h
    cases h
    exact hv ▸ synonyms_val_ne_none hq
  | none =>
    rw [hx] at h
    simp only [Option.or] at h
    obtain ⟨q, hq, hv⟩ := Option.map_eq_some'.mp h
    exact hv ▸ synonyms_val_ne_none hq

/-- The offline extractor never returns the "none" sentinel. -/
theorem extract_ne_none (inp : String) : extract_move_offline inp ≠ "none" := by
  have hexp : extract_move_offline inp =
      ((tableExact (normalize_input inp)).or (tableSub (normalize_input inp))).getD
        "unknown" := rfl
  rw [hexp]
  cases h : (tableExact (normalize_input inp)).or (tableSub (normalize_input inp)) with
  | some v => simpa using tableLookup_val_ne_none (normalize_input inp) h
  | none => decide

/-- On the normal shape, the updater appends exactly the played round record. -/
theorem update_normal_history (s : GameState) (um bm w : String) :
    (update_game_state s um bm w "normal").round_history =
      s.round_history ++
        [{ round_number := s.current_round, user_move := um, bot_move := bm, winner := w }] := by
  have hf := fun x => (advanceRound_frame x).1
  simp only [update_game_state]
  split_ifs <;> simp_all

/-- The source's first-matching-filler loop equals a `find?` over the filler
list followed by drop-and-strip of the matched phrase. -/
theorem stripFillerRec_eq_find (fs : List String) (n : List Char) :
    stripFillerRec fs n =
      ((fs.find? (fun f => leadsWith f.toList n)).map
        (fun f => pyStrip (n.drop f.toList.length))).getD n := by
  induction fs with
  | nil => rfl
  | cons f ft ih =>
    have hs : stripFillerRec (f :: ft) n =
        if leadsWith f.toList n = true then pyStrip (n.drop f.toList.length)
        else stripFillerRec ft n := rfl
    by_cases h : leadsWith f.toList n = true
    · rw [hs, if_pos h,
        show List.find? (fun g => leadsWith g.toList n) (f :: ft) = some f from
          List.find?_cons_of_pos ft h]
      rfl
    · rw [hs, if_neg h,
        show List.find? (fun g => leadsWith g.toList n) (f :: ft) =
            List.find? (fun g => leadsWith g.toList n) ft from
          List.find?_cons_of_neg ft h, ih]

/-- One history entry survives the `to_dict`/`from_dict` round trip. -/
theorem rr_roundtrip_single (r : RoundResult) : rrFromDict (rrToDict r) = r := by
  cases r
  rfl

/-! ## Claim theorems -/

/-- C4: the Round Resolver is total over all 16 ordered pairs of canonical
moves with outcome in {user, bot, draw}, antisymmetric (a win for user in one
order is a win for bot in the flipped order), and identical moves draw. -/
theorem c4_resolver_total_antisym : ∀ a ∈ CANONICAL_MOVES, ∀ b ∈ CANONICAL_MOVES,
    ((resolve_round a b).winner = "user" ∨ (resolve_round a b).winner = "bot" ∨
      (resolve_round a b).winner = "draw") ∧
    ((resolve_round a b).winner = "user" → (resolve_round b a).winner = "bot") ∧
    (resolve_round a a).winner = "draw" := by decide

/-- Witness for C4 at the concrete pair (rock, scissors). -/
theorem c4_resolver_total_antisym_witness :
    (resolve_round "rock" "scissors").winner = "bot" ∨
    (resolve_round "rock" "scissors").winner = "user" ∨
    (resolve_round "rock" "scissors").winner = "draw" :=
  ((c4_resolver_total_antisym "rock" (by decide) "scissors" (by decide)).1).elim
    (fun h => Or.inr (Or.inl h)) (fun h => h.elim Or.inl (fun h2 => Or.inr (Or.inr h2)))

/-- C8: bomb beats every non-bomb move in both orders with the distinct
"destroys" explanation phrasing, and bomb against bomb is a draw. -/
theorem c8_bomb_dominance : ∀ m ∈ ["rock", "paper", "scissors"],
    ((resolve_round "bomb" m).winner = "user" ∧
      (resolve_round "bomb" m).explanation =
        "User" ++ sq ++ "s bomb destroys bot" ++ sq ++ "s " ++ m ++ ".") ∧
    ((resolve_round m "bomb").winner = "bot" ∧
      (resolve_round m "bomb").explanation =
        "Bot" ++ sq ++ "s bomb destroys user" ++ sq ++ "s " ++ m ++ ".") ∧
    (resolve_round "bomb" "bomb").winner = "draw" := by decide

/-- Witness for C8 at the concrete move "rock". -/
theorem c8_bomb_dominance_witness :
    (resolve_round "bomb" "rock").winner = "user" ∧
    (resolve_round "rock" "bomb").winner = "bot" ∧
    (resolve_round "bomb" "bomb").winner = "draw" :=
  ⟨(c8_bomb_dominance "rock" (by decide)).1.1, (c8_bomb_dominance "rock" (by decide)).2.1.1,
    (c8_bomb_dominance "rock" (by decide)).2.2⟩

/-- C10: serialization round-trips — `from_dict (to_dict s)` equals `s`
field for field, with every history entry reconstructed identically. -/
theorem c10_roundtrip : ∀ s : GameState, from_dict (to_dict s) = s := by
  intro s
  cases s
  simp only [to_dict, from_dict, List.map_map]
  rw [show rrFromDict ∘ rrToDict = id from funext rr_roundtrip_single, List.map_id]

/-- C7: a rules/help request leaves the state completely unchanged and
dispatches no Validator, Resolver, or Updater tool. -/
theorem c7_rules_request_frame : ∀ (botMove : String) (s : GameState) (inp : String),
    is_rules_request inp = true →
    (play_round botMove s inp).st = s ∧ (play_round botMove s inp).tools = [] := by
  intro botMove s inp h
  cases hgo : s.game_over <;> simp [play_round, hgo, h]

/-- Witness for C7: the scenario input "what are the rules?" on a fresh state. -/
theorem c7_rules_request_frame_witness :
    (play_round "rock" create_new_game "what are the rules?").st = create_new_game ∧
    (play_round "rock" create_new_game "what are the rules?").tools = [] :=
  c7_rules_request_frame "rock" create_new_game "what are the rules?" (by decide)

/-- C1 counterexample: on a terminal state (round 3 ended 1-1, draw), a
normal-shape `update_game_state` call is not a no-op — it appends a history
entry, changes the score, and even changes `final_winner`. -/
theorem c1_counterexample :
    termDrawState.game_over = true ∧
    (update_game_state termDrawState "rock" "scissors" "user" "normal").round_history ≠
      termDrawState.round_history ∧
    (update_game_state termDrawState "rock" "scissors" "user" "normal").user_score ≠
      termDrawState.user_score ∧
    (update_game_state termDrawState "rock" "scissors" "user" "normal").final_winner ≠
      termDrawState.final_winner := by decide

/-- C6 counterexample: the input "xyz" fails validation, yet the orchestrator
penalty round appends a history entry (placeholder user move "rock"), so the
history is longer than the number of normally resolved rounds (zero). -/
theorem c6_counterexample :
    extract_move_offline "xyz" = "unknown" ∧
    (validate_move "unknown" "user" create_new_game).is_valid = false ∧
    (play_round "rock" create_new_game "xyz").st.round_history =
      [{ round_number := 1, user_move := "rock", bot_move := "rock", winner := "bot" }] := by
  decide

/-- C9 counterexample: on "i pick  scissor" (two spaces after the filler) the
claim's literal steps yield "rock" (the leftover leading space defeats the
exact match and the single-letter key "r" wins the substring scan), while the
code re-trims after stripping the filler and yields "scissors". -/
theorem c9_counterexample :
    extract_move_spec "i pick  scissor" ≠ extract_move_offline "i pick  scissor" ∧
    extract_move_offline "i pick  scissor" = "scissors" ∧
    extract_move_spec "i pick  scissor" = "rock" := by decide

/-- C3: after a state update the game ends with winner user on
`user_score ≥ 2`, with winner bot on `bot_score ≥ 2`, otherwise at round 3 by
score comparison (draw on a tie); when the game has not ended the round
counter increments by exactly one. Stated for `_advance_round` (the shared
advance-and-check routine of `update_game_state`, run after any mutation)
and for `waste_round`, whose scores are the untouched pre-round scores
(below 2 on any non-terminal state). -/
theorem c3_advance_logic : ∀ s : GameState,
    (s.user_score ≥ 2 →
      (advanceRound s).game_over = true ∧ (advanceRound s).final_winner = some "user" ∧
      (advanceRound s).current_round = s.current_round) ∧
    (s.user_score < 2 → s.bot_score ≥ 2 →
      (advanceRound s).game_over = true ∧ (advanceRound s).final_winner = some "bot" ∧
      (advanceRound s).current_round = s.current_round) ∧
    (s.user_score < 2 → s.bot_score < 2 → s.current_round ≥ 3 →
      (advanceRound s).game_over = true ∧ (advanceRound s).current_round = s.current_round ∧
      (s.user_score > s.bot_score → (advanceRound s).final_winner = some "user") ∧
      (s.bot_score > s.user_score → (advanceRound s).final_winner = some "bot") ∧
      (s.user_score = s.bot_score → (advanceRound s).final_winner = some "draw")) ∧
    ((advanceRound s).game_over = false →
      (advanceRound s).current_round = s.current_round + 1) ∧
    (s.user_score < 2 → s.bot_score < 2 →
      (s.current_round ≥ 3 →
        (waste_round s).updated_game_state.game_over = true ∧
        (s.user_score > s.bot_score →
          (waste_round s).updated_game_state.final_winner = some "user") ∧
        (s.bot_score > s.user_score →
          (waste_round s).updated_game_state.final_winner = some "bot") ∧
        (s.user_score = s.bot_score →
          (waste_round s).updated_game_state.final_winner = some "draw")) ∧
      (s.current_round < 3 →
        (waste_round s).updated_game_state.current_round = s.current_round + 1 ∧
        (waste_round s).updated_game_state.game_over = s.game_over)) := by
  intro s
  refine ⟨?_, ?_, ?_, ?_, ?_⟩
  · intro h
    simp only [advanceRound, advanceOver]
    split_ifs <;> simp_all
  · intro h1 h2
    simp only [advanceRound, advanceOver]
    split_ifs <;> simp_all
    omega
  · intro h1 h2 h3
    simp only [advanceRound, advanceOver]
    split_ifs <;> simp_all <;> omega
  · simp only [advanceRound, advanceOver]
    split_ifs <;> simp_all
  · intro h1 h2
    simp only [waste_round]
    split_ifs <;> simp_all <;> omega

/-- Witness for C3: a state where the user just reached score 2 in round 2 —
the game ends immediately with the user as winner, round not advanced. -/
theorem c3_advance_logic_witness :
    (advanceRound userTwoState).game_over = true ∧
    (advanceRound userTwoState).final_winner = some "user" ∧
    (advanceRound userTwoState).current_round = userTwoState.current_round :=
  (c3_advance_logic userTwoState).1 (by decide)

/-- C5: for each player, the Validator accepts exactly when the trimmed,
lowercased candidate is canonical and it is not a "bomb" from a player whose
bomb flag is already set; a repeated bomb is always rejected with the
one-bomb-per-game reason, whatever the other state fields. (The embedding is
a pure function of the state, which it only reads.) -/
theorem c5_validator_iff : ∀ (move : String) (s : GameState),
    ((validate_move move "user" s).is_valid = true ↔
      (pyNormStr move ∈ VALID_MOVES ∧
        ¬(pyNormStr move = "bomb" ∧ s.user_bomb_used = true))) ∧
    ((validate_move move "bot" s).is_valid = true ↔
      (pyNormStr move ∈ VALID_MOVES ∧
        ¬(pyNormStr move = "bomb" ∧ s.bot_bomb_used = true))) ∧
    (pyNormStr move = "bomb" → s.user_bomb_used = true →
      (validate_move move "user" s).is_valid = false ∧
      (validate_move move "user" s).reason =
        "Bomb already used. You can only use bomb once per game.") ∧
    (pyNormStr move = "bomb" → s.bot_bomb_used = true →
      (validate_move move "bot" s).is_valid = false ∧
      (validate_move move "bot" s).reason = "Bot has already used bomb this game.") := by
  intro move s
  unfold validate_move
  by_cases hb : pyNormStr move = "bomb"
  · have hmem : pyNormStr move ∈ VALID_MOVES := by rw [hb]; decide
    cases hu : s.user_bomb_used <;> cases hbb : s.bot_bomb_used <;> simp_all
  · by_cases hmem : pyNormStr move ∈ VALID_MOVES <;> simp_all

/-- Witness for C5: a spent user bomb is rejected on an otherwise live state. -/
theorem c5_validator_iff_witness :
    (validate_move "bomb" "user" userBombSpentState).is_valid = false ∧
    (validate_move "bomb" "user" userBombSpentState).reason =
      "Bomb already used. You can only use bomb once per game." :=
  (c5_validator_iff "bomb" userBombSpentState).2.2.1 (by decide) (by decide)

/-- C1 amended: once `game_over` is true, `play_round` returns the identical
state and dispatches no tool; `update_game_state` itself has no terminal
guard — only its invalid shape leaves history, scores, and bomb flags
untouched, while its normal shape mutates even a terminal state (see the
counterexample). -/
theorem c1_amended_terminal_noop : ∀ (botMove : String) (s : GameState) (inp : String)
    (a b w : String),
    s.game_over = true →
    (play_round botMove s inp).st = s ∧
    (play_round botMove s inp).tools = [] ∧
    (update_game_state s a b w "invalid").round_history = s.round_history ∧
    (update_game_state s a b w "invalid").user_score = s.user_score ∧
    (update_game_state s a b w "invalid").bot_score = s.bot_score ∧
    (update_game_state s a b w "invalid").user_bomb_used = s.user_bomb_used ∧
    (update_game_state s a b w "invalid").bot_bomb_used = s.bot_bomb_used := by
  intro botMove s inp a b w h
  obtain ⟨f1, f2, f3, f4, f5⟩ := advanceRound_frame s
  refine ⟨by simp [play_round, h], by simp [play_round, h], ?_, ?_, ?_, ?_, ?_⟩ <;>
    simp [update_game_state, f1, f2, f3, f4, f5]

/-- C2: when the user's input fails validation on a non-terminal state, the
orchestrator penalty path processes the round as a bot win with the fixed
placeholder user move "rock" and the bot's actually-selected move (setting
the bot's bomb flag when it is "bomb"), increments the bot score by exactly
one, and runs the normal game-over/advance logic. -/
theorem c2_invalid_penalty : ∀ (botMove : String) (s : GameState) (inp : String),
    s.game_over = false →
    is_rules_request inp = false →
    (validate_move (extract_move_offline inp) "user" s).is_valid = false →
    (play_round botMove s inp).st =
      advanceRound
        { s with
            bot_score := s.bot_score + 1,
            bot_bomb_used := if botMove = "bomb" then true else s.bot_bomb_used,
            round_history := s.round_history ++
              [{ round_number := s.current_round, user_move := "rock",
                 bot_move := botMove, winner := "bot" }] } ∧
    (play_round botMove s inp).st.bot_score = s.bot_score + 1 ∧
    (play_round botMove s inp).st.user_score = s.user_score ∧
    (play_round botMove s inp).st.user_bomb_used = s.user_bomb_used ∧
    (play_round botMove s inp).tools = ["validate_move", "update_game_state"] := by
  intro botMove s inp h1 h2 h3
  have hne := extract_ne_none inp
  have hplay : play_round botMove s inp =
      { st := update_game_state s "rock" botMove "bot" "normal"
        tools := ["validate_move", "update_game_state"] } := by
    simp [play_round, h1, h2, hne, h3]
  have hmid : update_game_state s "rock" botMove "bot" "normal" =
      advanceRound
        { s with
            bot_score := s.bot_score + 1,
            bot_bomb_used := if botMove = "bomb" then true else s.bot_bomb_used,
            round_history := s.round_history ++
              [{ round_number := s.current_round, user_move := "rock",
                 bot_move := botMove, winner := "bot" }] } := by
    by_cases hbm : botMove = "bomb" <;> simp [update_game_state, hbm]
  rw [hplay]
  obtain ⟨g1, g2, g3, g4, g5⟩ := advanceRound_frame
    { s with
        bot_score := s.bot_score + 1,
        bot_bomb_used := if botMove = "bomb" then true else s.bot_bomb_used,
        round_history := s.round_history ++
          [{ round_number := s.current_round, user_move := "rock",
             bot_move := botMove, winner := "bot" }] }
  exact ⟨hmid, by rw [hmid, g3], by rw [hmid, g2], by rw [hmid, g4], rfl⟩

/-- Witness for C2: the scenario input "xyz" on a fresh state with bot move
"rock" — the bot wins the penalty round and the round advances. -/
theorem c2_invalid_penalty_witness :
    (play_round "rock" create_new_game "xyz").st =
      advanceRound
        { create_new_game with
            bot_score := create_new_game.bot_score + 1,
            bot_bomb_used := if ("rock" : String) = "bomb" then true
                             else create_new_game.bot_bomb_used,
            round_history := create_new_game.round_history ++
              [{ round_number := create_new_game.current_round, user_move := "rock",
                 bot_move := "rock", winner := "bot" }] } ∧
    (play_round "rock" create_new_game "xyz").st.bot_score =
      create_new_game.bot_score + 1 ∧
    (play_round "rock" create_new_game "xyz").st.user_score =
      create_new_game.user_score ∧
    (play_round "rock" create_new_game "xyz").st.user_bomb_used =
      create_new_game.user_bomb_used ∧
    (play_round "rock" create_new_game "xyz").tools =
      ["validate_move", "update_game_state"] :=
  c2_invalid_penalty "rock" create_new_game "xyz" (by decide) (by decide) (by decide)

/-- C9 amended: the extractor computes exactly the claim's steps with one
correction — after stripping the matched leading filler phrase, the
remainder is whitespace-trimmed again before the trailing punctuation is
stripped. Already-canonical move strings extract to themselves. -/
theorem c9_amended_extractor :
    (∀ input : String, extract_move_offline input = extract_move_spec_trim input) ∧
    extract_move_offline "rock" = "rock" ∧
    extract_move_offline "paper" = "paper" ∧
    extract_move_offline "scissors" = "scissors" ∧
    extract_move_offline "bomb" = "bomb" := by
  refine ⟨?_, by decide, by decide, by decide, by decide⟩
  intro input
  show ((tableExact (normalize_input input)).or (tableSub (normalize_input input))).getD
      "unknown" = extract_move_spec_trim input
  have hn : normalize_input input =
      String.mk (rstripPunct (specStripFillerTrim (pyStrip (input.toList.map pyLowerChar)))) := by
    simp only [normalize_input, stripFillerRec_eq_find]
    rfl
  rw [hn]
  rfl

/-- C6 amended: every processed round — normally resolved or penalty — adds
exactly one history entry (the orchestrator's penalty path records a
placeholder round), terminal and rules-request calls add none, history is
only ever extended, and the unused invalid-shape updater and `waste_round`
leave history untouched. -/
theorem c6_amended_history_growth : ∀ (botMove : String) (s : GameState) (inp : String)
    (a b w : String),
    (play_round botMove s inp).st.round_history.take s.round_history.length =
      s.round_history ∧
    (play_round botMove s inp).st.round_history.length =
      s.round_history.length + (if s.game_over || is_rules_request inp then 0 else 1) ∧
    (update_game_state s a b w "invalid").round_history = s.round_history ∧
    (waste_round s).updated_game_state.round_history = s.round_history := by
  intro botMove s inp a b w
  have hinv : (update_game_state s a b w "invalid").round_history = s.round_history := by
    simp [update_game_state, (advanceRound_frame s).1]
  have hwaste : (waste_round s).updated_game_state.round_history = s.round_history := by
    simp only [waste_round]
    split_ifs <;> rfl
  have hne := extract_ne_none inp
  cases hgo : s.game_over with
  | true =>
    refine ⟨?_, ?_, hinv, hwaste⟩ <;> simp [play_round, hgo, List.take_length]
  | false =>
    cases hrr : is_rules_request inp with
    | true =>
      refine ⟨?_, ?_, hinv, hwaste⟩ <;> simp [play_round, hgo, hrr, List.take_length]
    | false =>
      cases hv : (validate_move (extract_move_offline inp) "user" s).is_valid with
      | false =>
        have hplay : (play_round botMove s inp).st =
            update_game_state s "rock" botMove "bot" "normal" := by
          simp [play_round, hgo, hrr, hne, hv]
        refine ⟨?_, ?_, hinv, hwaste⟩ <;>
          simp [hplay, hgo, hrr, update_normal_history, List.take_left]
      | true =>
        have hplay : (play_round botMove s inp).st =
            update_game_state s
              ((validate_move (extract_move_offline inp) "user" s).normalized_move.getD "")
              botMove
              (resolve_round
                ((validate_move (extract_move_offline inp) "user" s).normalized_move.getD "")
                botMove).winner "normal" := by
          simp [play_round, hgo, hrr, hne, hv]
        refine ⟨?_, ?_, hinv, hwaste⟩ <;>
          simp [hplay, hgo, hrr, update_normal_history, List.take_left]

/-- Witness for C1 (amended) on the concrete terminal draw state. -/
theorem c1_amended_terminal_noop_witness :
    (play_round "rock" termDrawState "rock").st = termDrawState ∧
    (play_round "rock" termDrawState "rock").tools = [] ∧
    (update_game_state termDrawState "rock" "rock" "user" "invalid").round_history =
      termDrawState.round_history ∧
    (update_game_state termDrawState "rock" "rock" "user" "invalid").user_score =
      termDrawState.user_score ∧
    (update_game_state termDrawState "rock" "rock" "user" "invalid").bot_score =
      termDrawState.bot_score ∧
    (update_game_state termDrawState "rock" "rock" "user" "invalid").user_bomb_used =
      termDrawState.user_bomb_used ∧
    (update_game_state termDrawState "rock" "rock" "user" "invalid").bot_bomb_used =
      termDrawState.bot_bomb_used :=
  c1_amended_terminal_noop "rock" termDrawState "rock" "rock" "rock" "user" (by decide)

end RPSB
